import Mathlib

/-!
Shallow embedding of the Order resource controller of the E-Commerce
repository (src/unnamed/part_001, `orderController.js`), together with the
data-access helper (`dbService`) and the request-validation helper that the
controller calls.  The controller code is embedded from the source; the two
helpers and the schema tables live in files absent from src, so they are
modelled from the spec (each such definition says so in its doc comment).

JS objects whose field values are strings are embedded as association lists
`List (String × String)`; a MongoDB equality filter is an association list
whose values are `Option String` (`none` embedding a JS `undefined` / absent
field, as produced by `{ _id : req.params.id }` when the id parameter is
missing).
-/

namespace ECom

/-- A document / JS object: an association list of string-valued fields. -/
abbrev Doc := List (String × String)

/-- A MongoDB equality filter: field name to expected value, `none` meaning
the field must be absent (the image of a JS `undefined` value). -/
abbrev Query := List (String × Option String)

/-- The document store backing the Order collection. -/
abbrev Store := List Doc

/-- Field lookup on a document (JS `obj[k]`, `none` for an absent field). -/
def getField : Doc → String → Option String
  | [], _ => none
  | p :: rest, k => if p.1 == k then some p.2 else getField rest k

/-- Field assignment on a document (JS `obj[k] = v`, also the effect of a
spread such as `\x7b ...obj, k : v \x7d` on key `k`). -/
def setField : Doc → String → String → Doc
  | [], k, v => [(k, v)]
  | p :: rest, k, v => if p.1 == k then (k, v) :: rest else p :: setField rest k v

/-- Field removal on a document (JS `delete obj[k]`). -/
def removeField : Doc → String → Doc
  | [], _ => []
  | p :: rest, k => if p.1 == k then removeField rest k else p :: removeField rest k

/-- Apply a patch document to a base document: every field of the patch is
written over the base (MongoDB `$set` semantics of an update payload). -/
def mergeDoc (base patch : Doc) : Doc :=
  patch.foldl (fun acc p => setField acc p.1 p.2) base

/-- Does a document satisfy an equality filter? -/
def matchesQuery (q : Query) (d : Doc) : Bool :=
  q.all fun p => getField d p.1 == p.2

/-! ### Basic field lemmas -/

theorem getField_setField_self (d : Doc) (k v : String) :
    getField (setField d k v) k = some v := by
  induction d with
  | nil => simp [setField, getField]
  | cons p rest ih =>
    by_cases h : p.1 = k
    · simp [setField, getField, h]
    · simp [setField, getField, h, ih]

theorem getField_setField_ne (d : Doc) (k v : String) (k' : String) (h : k' ≠ k) :
    getField (setField d k v) k' = getField d k' := by
  induction d with
  | nil => simp [setField, getField, Ne.symm h]
  | cons p rest ih =>
    by_cases hp : p.1 = k
    · simp [setField, getField, hp, Ne.symm h]
    · simp [setField, getField, hp, h, ih]

theorem getField_removeField_self (d : Doc) (k : String) :
    getField (removeField d k) k = none := by
  induction d with
  | nil => simp [removeField, getField]
  | cons p rest ih =>
    by_cases h : p.1 = k
    · simp [removeField, h, ih]
    · simp [removeField, getField, h, ih]

theorem getField_mergeDoc_none (patch : Doc) (base : Doc) (k : String)
    (h : getField patch k = none) :
    getField (mergeDoc base patch) k = getField base k := by
  induction patch generalizing base with
  | nil => simp [mergeDoc]
  | cons p rest ih =>
    by_cases hp : p.1 = k
    · simp [getField, hp] at h
    · simp [getField, hp] at h
      have : mergeDoc base (p :: rest) = mergeDoc (setField base p.1 p.2) rest := by
        simp [mergeDoc]
      rw [this, ih _ h, getField_setField_ne _ _ _ _ (fun hh => hp hh.symm)]

/-! ### Data-access helper (`dbService`)

`utils/dbService.js` is not under src (the controller is its caller), so the
five operations are modelled from the spec, section 4.2. -/

/-- Pagination / shape options recognized by `paginate` (spec section 3:
`page` 1-based, `limit` page size, `pagination` enable/disable; `populate`
only expands references and is irrelevant to the embedded claims). -/
structure Opts where
  page : Option Nat
  limit : Option Nat
  pagination : Bool
  deriving Repr, DecidableEq

/-- The options object a JS empty `\x7b\x7d` denotes: nothing set, pagination
enabled (the store's default). -/
def defaultOpts : Opts := ⟨none, none, true⟩

/-- The pagination envelope returned by `paginate` (spec section 4.2). -/
structure Paginated where
  data : List Doc
  totalRecords : Nat
  deriving Repr, DecidableEq

/-- Modelled from the spec: `dbService.create` — inserts one document and
returns the stored document including its assigned identity. -/
def dbCreate (st : Store) (d : Doc) : Doc × Store :=
  let stored := if (getField d "_id").isSome then d else setField d "_id" (toString st.length)
  (stored, st ++ [stored])

/-- Modelled from the spec: `dbService.findOne` — first matching document or
an explicit not-found sentinel (never throws for absence). -/
def dbFindOne (st : Store) (q : Query) : Option Doc :=
  (st.filter (matchesQuery q)).head?

/-- Modelled from the spec: `dbService.count` — the number of matching
documents; `0` is a valid, non-error result. -/
def dbCount (st : Store) (q : Query) : Nat :=
  (st.filter (matchesQuery q)).length

/-- Modelled from the spec: `dbService.paginate` — matching documents cut to
the requested page when pagination is enabled, all matches otherwise,
together with the total record count. -/
def dbPaginate (st : Store) (q : Query) (o : Opts) : Paginated :=
  let ms := st.filter (matchesQuery q)
  let dat :=
    if o.pagination then
      let lim := o.limit.getD 10
      let pg := max 1 (o.page.getD 1)
      (ms.drop ((pg - 1) * lim)).take lim
    else ms
  ⟨dat, ms.length⟩

/-- Modelled from the spec: `dbService.updateOne` — applies the patch to the
first document matching the query and returns the updated document, or the
not-found sentinel (and an unchanged store) when nothing matched. -/
def dbUpdateOne : Store → Query → Doc → Option Doc × Store
  | [], _, _ => (none, [])
  | d :: rest, q, patch =>
    if matchesQuery q d then
      (some (mergeDoc d patch), mergeDoc d patch :: rest)
    else
      ((dbUpdateOne rest q patch).1, d :: (dbUpdateOne rest q patch).2)

/-- The store failures the spec's `PersistenceError` stands for are embedded
as `Except`: each operation either returns its result or raises a message. -/
structure DbOps where
  create : Store → Doc → Except String (Doc × Store)
  findOne : Store → Query → Except String (Option Doc)
  count : Store → Query → Except String Nat
  paginate : Store → Query → Opts → Except String Paginated
  updateOne : Store → Query → Doc → Except String (Option Doc × Store)

/-- The healthy store: every operation succeeds with the modelled result. -/
def goodDb : DbOps where
  create st d := .ok (dbCreate st d)
  findOne st q := .ok (dbFindOne st q)
  count st q := .ok (dbCount st q)
  paginate st q o := .ok (dbPaginate st q o)
  updateOne st q p := .ok (dbUpdateOne st q p)

/-- A store whose every operation raises the same `PersistenceError`
message, for the exception-at-the-boundary claims. -/
def failDb (e : String) : DbOps where
  create _ _ := .error e
  findOne _ _ := .error e
  count _ _ := .error e
  paginate _ _ _ := .error e
  updateOne _ _ _ := .error e

/-! ### Validation helper

`utils/validateRequest.js` and the schema tables of
`utils/validation/orderValidation.js` are not under src, so they are
modelled from the spec, sections 4.1 and 9 (a declarative field-rule table
consumed by one reusable validator). -/

/-- One rule of a schema key table: a field name and whether a value for it
is required. -/
structure SchemaRule where
  name : String
  required : Bool
  deriving Repr, DecidableEq

/-- A schema key table (spec: declarative list of field rules). -/
abbrev SchemaKeys := List SchemaRule

/-- The verdict a validation call returns (spec section 4.1). -/
structure Verdict where
  isValid : Bool
  message : String
  deriving Repr, DecidableEq

/-- Modelled from the spec: `validation.validateParamsWithJoi` — fails when
a required field is missing, aggregating the violations into the message;
never throws. (The spec names no rule rejecting unrecognized extra fields
of the candidate, so none is modelled.) -/
def validateParamsWithJoi (candidate : Doc) (keys : SchemaKeys) : Verdict :=
  let missing := keys.filter fun k => k.required && (getField candidate k.name).isNone
  if missing.isEmpty then ⟨true, ""⟩
  else ⟨false, String.intercalate ", " (missing.map fun k => k.name ++ " is required")⟩

/-- Modelled from the spec: `orderSchemaKey.findFilterKeys` — the recognized
top-level keys of the generic filter envelope (spec section 4.1). -/
def findFilterKeys : List String := ["query", "where", "options", "isCountOnly"]

/-- Modelled from the spec: `validation.validateFilterWithJoi` — the filter
envelope passes when each of its top-level keys is recognized. -/
def validateFilterWithJoi (rawKeys : List String) (filterKeys : List String) : Verdict :=
  if rawKeys.all (fun k => filterKeys.contains k) then ⟨true, ""⟩
  else ⟨false, "invalid filter keys"⟩

/-- Modelled from the spec: the external `ObjectId.isValid` of the mongodb
driver — a well-formed identity value is a 24-character hexadecimal string;
an absent parameter is not well-formed. -/
def isValidObjectId : Option String → Bool
  | none => false
  | some s => s.length == 24 && s.toList.all fun c =>
      c.isDigit || ('a' ≤ c && c ≤ 'f') || ('A' ≤ c && c ≤ 'F')

/-- JS truthiness of an optional string (`undefined` and `""` are falsy). -/
def truthyStr : Option String → Bool
  | none => false
  | some s => !(s == "")

/-! ### Response envelopes and controller outputs -/

/-- The data payload of a success envelope, one shape per call site of
`res.success` in the controller: a single document, a pagination envelope,
a `\x7b totalRecords \x7d` object, or a `\x7b count \x7d` object. -/
inductive RData where
  | doc : Doc → RData
  | page : Paginated → RData
  | countOnly : Nat → RData
  | countData : Nat → RData
  deriving Repr, DecidableEq

/-- The response envelope contract of spec section 6: one constructor per
`res.*` helper the controller calls. -/
inductive Response where
  | success : RData → Response
  | validationError : String → Response
  | badRequest : String → Response
  | recordNotFound : Response
  | internalServerError : String → Response
  deriving Repr, DecidableEq

/-- Which `dbService` operation a controller run invoked, in order. -/
inductive DbCall where
  | create | findOne | count | paginate | updateOne
  deriving Repr, DecidableEq

/-- Observable outcome of one controller run: the responses emitted through
`res` in order (the HTTP client receives the first), the `dbService`
operations attempted, and the resulting store. -/
structure CtrlOut where
  sent : List Response
  calls : List DbCall
  store : Store
  deriving Repr, DecidableEq

/-! ### Controller operations (embedded from `orderController.js`)

The schema tables (`orderSchemaKey.schemaKeys`, `.updateSchemaKeys`) are
imports the controller reads from a file absent from src, so each operation
takes the table as a parameter; the `dbService` it runs against is likewise
a parameter, so that both the healthy store and a failing store can be run.
A raised `PersistenceError` takes the `.error` branch of the match, which
embeds the controller's `catch` block. -/

/-- A create request: the authenticated caller (`req.user.id`) and the
request body. -/
structure CreateReq where
  user_id : String
  body : Doc
  deriving Repr, DecidableEq

/-- `addOrder` (part_001 lines 19-35): spread the body, validate against the
creation schema, stamp `addedBy` from the authenticated caller, persist. -/
def addOrder (schemaKeys : SchemaKeys) (db : DbOps) (req : CreateReq) (st : Store) : CtrlOut :=
  let dataToCreate := req.body
  let validateRequest := validateParamsWithJoi dataToCreate schemaKeys
  if !validateRequest.isValid then
    ⟨[.validationError ("Invalid values in parameters, " ++ validateRequest.message)], [], st⟩
  else
    let dataToCreate := setField dataToCreate "addedBy" req.user_id
    match db.create st dataToCreate with
    | .ok (createdOrder, st') => ⟨[.success (.doc createdOrder)], [.create], st'⟩
    | .error e => ⟨[.internalServerError e], [.create], st⟩

/-- A list request body: its top-level key names (for filter validation),
the `query` object when one is present and is an object (`none` embeds both
an absent and a non-object `query`, which the controller treats alike), the
`options` object likewise, and the truthiness of `isCountOnly`. -/
structure ListReq where
  rawKeys : List String
  query : Option Query
  options : Option Opts
  isCountOnly : Bool
  deriving Repr, DecidableEq

/-- `findAllOrder` (part_001 lines 43-73): validate the filter envelope;
when `isCountOnly` is truthy return only the total count; otherwise
paginate, and map an empty data list to `recordNotFound`. -/
def findAllOrder (db : DbOps) (req : ListReq) (st : Store) : CtrlOut :=
  let validateRequest := validateFilterWithJoi req.rawKeys findFilterKeys
  if !validateRequest.isValid then
    ⟨[.validationError validateRequest.message], [], st⟩
  else
    let query := req.query.getD []
    if req.isCountOnly then
      match db.count st query with
      | .ok totalRecords => ⟨[.success (.countOnly totalRecords)], [.count], st⟩
      | .error e => ⟨[.internalServerError e], [.count], st⟩
    else
      let options := req.options.getD defaultOpts
      match db.paginate st query options with
      | .ok foundOrders =>
        if foundOrders.data.isEmpty then ⟨[.recordNotFound], [.paginate], st⟩
        else ⟨[.success (.page foundOrders)], [.paginate], st⟩
      | .error e => ⟨[.internalServerError e], [.paginate], st⟩

/-- A get-by-id request: the `:id` route parameter. -/
structure GetReq where
  params_id : Option String
  deriving Repr, DecidableEq

/-- `getOrder` (part_001 lines 81-98): reject a malformed ObjectId before
querying; otherwise find by `_id` and map absence to `recordNotFound`. -/
def getOrder (db : DbOps) (req : GetReq) (st : Store) : CtrlOut :=
  if !isValidObjectId req.params_id then
    ⟨[.validationError "invalid objectId."], [], st⟩
  else
    let query : Query := [("_id", req.params_id)]
    match db.findOne st query with
    | .ok none => ⟨[.recordNotFound], [.findOne], st⟩
    | .ok (some foundOrder) => ⟨[.success (.doc foundOrder)], [.findOne], st⟩
    | .error e => ⟨[.internalServerError e], [.findOne], st⟩

/-- A count request body: its top-level key names and the `where` object
when present and an object. -/
structure CountReq where
  rawKeys : List String
  whereQ : Option Query
  deriving Repr, DecidableEq

/-- `getOrderCount` (part_001 lines 106-124): validate the filter envelope,
count the matches of `where`, and return the count — also when it is 0. -/
def getOrderCount (db : DbOps) (req : CountReq) (st : Store) : CtrlOut :=
  let validateRequest := validateFilterWithJoi req.rawKeys findFilterKeys
  if !validateRequest.isValid then
    ⟨[.validationError validateRequest.message], [], st⟩
  else
    let whereQuery := req.whereQ.getD []
    match db.count st whereQuery with
    | .ok countedOrder => ⟨[.success (.countData countedOrder)], [.count], st⟩
    | .error e => ⟨[.internalServerError e], [.count], st⟩

/-- An update request: the `:id` route parameter, the authenticated caller,
and the request body. -/
structure UpdateReq where
  params_id : Option String
  user_id : String
  body : Doc
  deriving Repr, DecidableEq

/-- `updateOrder` (part_001 lines 132-154): spread the body over a stamped
`updatedBy`, validate against the update schema, and update by `_id`. The
body is spread as-is — nothing strips a client-supplied `addedBy` here. -/
def updateOrder (updateSchemaKeys : SchemaKeys) (db : DbOps) (req : UpdateReq) (st : Store) : CtrlOut :=
  let dataToUpdate := setField req.body "updatedBy" req.user_id
  let validateRequest := validateParamsWithJoi dataToUpdate updateSchemaKeys
  if !validateRequest.isValid then
    ⟨[.validationError ("Invalid values in parameters, " ++ validateRequest.message)], [], st⟩
  else
    let query : Query := [("_id", req.params_id)]
    match db.updateOne st query dataToUpdate with
    | .ok (none, st') => ⟨[.recordNotFound], [.updateOne], st'⟩
    | .ok (some updatedOrder, st') => ⟨[.success (.doc updatedOrder)], [.updateOne], st'⟩
    | .error e => ⟨[.internalServerError e], [.updateOne], st⟩

/-- Outcome of a `partialUpdateOrder` run: besides the controller outcome,
the request body as it stands after the call (the controller deletes
`addedBy` from `req.body` in place). -/
structure POut where
  sent : List Response
  calls : List DbCall
  store : Store
  reqBody : Doc
  deriving Repr, DecidableEq

/-- `partialUpdateOrder` (part_001 lines 162-188): the missing-id guard on
line 164 calls `res.badRequest` WITHOUT `return`, so execution falls
through it — the emitted bad-request response is recorded and the body
continues, exactly as the source does. Then `delete req.body['addedBy']`,
spread over a stamped `updatedBy`, validate, and update by `_id` (an absent
id parameter reaching the query embeds as a `none` value for `_id`). -/
def partialUpdateOrder (updateSchemaKeys : SchemaKeys) (db : DbOps) (req : UpdateReq) (st : Store) : POut :=
  let early : List Response :=
    if !truthyStr req.params_id then
      [.badRequest "Insufficient request parameters! id is required."]
    else []
  let body := removeField req.body "addedBy"
  let dataToUpdate := setField body "updatedBy" req.user_id
  let validateRequest := validateParamsWithJoi dataToUpdate updateSchemaKeys
  if !validateRequest.isValid then
    ⟨early ++ [.validationError ("Invalid values in parameters, " ++ validateRequest.message)], [], st, body⟩
  else
    let query : Query := [("_id", req.params_id)]
    match db.updateOne st query dataToUpdate with
    | .ok (none, st') => ⟨early ++ [.recordNotFound], [.updateOne], st', body⟩
    | .ok (some updatedOrder, st') => ⟨early ++ [.success (.doc updatedOrder)], [.updateOne], st', body⟩
    | .error e => ⟨early ++ [.internalServerError e], [.updateOne], st, body⟩

/-! ### Shared lemmas about the store operations -/

theorem dbUpdateOne_map_getField (st : Store) (q : Query) (patch : Doc) (k : String)
    (h : getField patch k = none) :
    ((dbUpdateOne st q patch).2).map (fun d => getField d k) = st.map (fun d => getField d k) := by
  induction st with
  | nil => simp [dbUpdateOne]
  | cons d rest ih =>
    by_cases hm : matchesQuery q d
    · simp [dbUpdateOne, hm, getField_mergeDoc_none _ _ _ h]
    · simp [dbUpdateOne, hm, ih]

theorem dbPaginate_data_empty (st : Store) (q : Query) (o : Opts)
    (h : st.filter (matchesQuery q) = []) : (dbPaginate st q o).data = [] := by
  simp [dbPaginate, h]

theorem getField_updatePatch_addedBy (body : Doc) (uid : String) :
    getField (setField (removeField body "addedBy") "updatedBy" uid) "addedBy" = none := by
  rw [getField_setField_ne _ _ _ _ (by decide : "addedBy" ≠ "updatedBy")]
  exact getField_removeField_self _ _

/-! ### Claim theorems -/

/-- Claim C1: a list request whose validated filter matches zero documents
and whose `isCountOnly` flag is not set answers with the record-not-found
envelope — never a success envelope with an empty data array. -/
theorem findAllOrder_empty_filter_recordNotFound (req : ListReq) (st : Store)
    (hv : (validateFilterWithJoi req.rawKeys findFilterKeys).isValid = true)
    (hc : req.isCountOnly = false)
    (he : st.filter (matchesQuery (req.query.getD [])) = []) :
    findAllOrder goodDb req st = ⟨[.recordNotFound], [.paginate], st⟩ := by
  have hd := dbPaginate_data_empty st (req.query.getD []) (req.options.getD defaultOpts) he
  simp [findAllOrder, goodDb, hv, hc, hd]

/-- Witness for C1: a well-formed filter over an empty store. -/
theorem findAllOrder_empty_filter_recordNotFound_witness :
    findAllOrder goodDb ⟨["query"], some [("x", some "1")], none, false⟩ []
      = ⟨[.recordNotFound], [.paginate], []⟩ :=
  findAllOrder_empty_filter_recordNotFound ⟨["query"], some [("x", some "1")], none, false⟩ []
    (by decide) rfl rfl

/-- Claim C4: a successful create stores `addedBy` equal to the
authenticated caller's identity, whatever `addedBy` the body carried. -/
theorem addOrder_addedBy_from_caller (keys : SchemaKeys) (req : CreateReq) (st : Store)
    (hv : (validateParamsWithJoi req.body keys).isValid = true) :
    ∃ created,
      addOrder keys goodDb req st = ⟨[.success (.doc created)], [.create], st ++ [created]⟩
      ∧ getField created "addedBy" = some req.user_id := by
  refine ⟨(dbCreate st (setField req.body "addedBy" req.user_id)).1, ?_, ?_⟩
  · simp [addOrder, goodDb, hv, dbCreate]
  · by_cases hid : (getField (setField req.body "addedBy" req.user_id) "_id").isSome
    · simp [dbCreate, hid, getField_setField_self]
    · simp [dbCreate, hid, getField_setField_ne _ _ _ _ (by decide : "addedBy" ≠ "_id"),
        getField_setField_self]

/-- Witness for C4: the body smuggles `addedBy`; the stored value is the
caller's identity nonetheless. -/
theorem addOrder_addedBy_from_caller_witness :
    ∃ created,
      addOrder [] goodDb ⟨"u1", [("addedBy", "evil")]⟩ []
        = ⟨[.success (.doc created)], [.create], [] ++ [created]⟩
      ∧ getField created "addedBy" = some "u1" :=
  addOrder_addedBy_from_caller [] ⟨"u1", [("addedBy", "evil")]⟩ [] (by decide)

/-- Claim C5: `getOrder` answers a malformed identity with the
validation-error envelope without querying the store, a well-formed but
absent identity with record-not-found, and an existing identity with a
success envelope holding exactly the found document. -/
theorem getOrder_trichotomy (req : GetReq) (st : Store) :
    (isValidObjectId req.params_id = false →
      getOrder goodDb req st = ⟨[.validationError "invalid objectId."], [], st⟩)
    ∧ (isValidObjectId req.params_id = true →
        dbFindOne st [("_id", req.params_id)] = none →
      getOrder goodDb req st = ⟨[.recordNotFound], [.findOne], st⟩)
    ∧ (∀ d, isValidObjectId req.params_id = true →
        dbFindOne st [("_id", req.params_id)] = some d →
      getOrder goodDb req st = ⟨[.success (.doc d)], [.findOne], st⟩) := by
  refine ⟨fun h => ?_, fun h hf => ?_, fun d h hf => ?_⟩
  · simp [getOrder, h]
  · simp [getOrder, goodDb, h, hf]
  · simp [getOrder, goodDb, h, hf]

/-- Witness for C5: the three branches at concrete identities over a
one-document store. -/
theorem getOrder_trichotomy_witness :
    getOrder goodDb ⟨some "nope"⟩ [[("_id", "0123456789abcdef01234567")]]
      = ⟨[.validationError "invalid objectId."], [], [[("_id", "0123456789abcdef01234567")]]⟩
    ∧ getOrder goodDb ⟨some "aaaaaaaaaaaaaaaaaaaaaaaa"⟩ [[("_id", "0123456789abcdef01234567")]]
      = ⟨[.recordNotFound], [.findOne], [[("_id", "0123456789abcdef01234567")]]⟩
    ∧ getOrder goodDb ⟨some "0123456789abcdef01234567"⟩ [[("_id", "0123456789abcdef01234567")]]
      = ⟨[.success (.doc [("_id", "0123456789abcdef01234567")])], [.findOne],
          [[("_id", "0123456789abcdef01234567")]]⟩ :=
  ⟨(getOrder_trichotomy ⟨some "nope"⟩ [[("_id", "0123456789abcdef01234567")]]).1 (by decide),
   (getOrder_trichotomy ⟨some "aaaaaaaaaaaaaaaaaaaaaaaa"⟩
      [[("_id", "0123456789abcdef01234567")]]).2.1 (by decide) (by decide),
   (getOrder_trichotomy ⟨some "0123456789abcdef01234567"⟩
      [[("_id", "0123456789abcdef01234567")]]).2.2
      [("_id", "0123456789abcdef01234567")] (by decide) (by decide)⟩

/-- Claim C6: a count request whose filter passes validation and matches
zero documents answers success with count 0, not an error. -/
theorem getOrderCount_zero_success (req : CountReq) (st : Store)
    (hv : (validateFilterWithJoi req.rawKeys findFilterKeys).isValid = true)
    (hz : dbCount st (req.whereQ.getD []) = 0) :
    getOrderCount goodDb req st = ⟨[.success (.countData 0)], [.count], st⟩ := by
  simp [getOrderCount, goodDb, hv, hz]

/-- Witness for C6: a filter matching nothing in a nonempty store. -/
theorem getOrderCount_zero_success_witness :
    getOrderCount goodDb ⟨["where"], some [("zz", some "9")]⟩ [[("a", "1")]]
      = ⟨[.success (.countData 0)], [.count], [[("a", "1")]]⟩ :=
  getOrderCount_zero_success ⟨["where"], some [("zz", some "9")]⟩ [[("a", "1")]]
    (by decide) (by decide)

/-- Claim C7: a list request whose filter passes validation and whose
`isCountOnly` flag is set answers success with only the total record count,
and no pagination query is performed (the only store call is `count`). -/
theorem findAllOrder_countOnly_skips_paginate (req : ListReq) (st : Store)
    (hv : (validateFilterWithJoi req.rawKeys findFilterKeys).isValid = true)
    (hc : req.isCountOnly = true) :
    findAllOrder goodDb req st
      = ⟨[.success (.countOnly (dbCount st (req.query.getD [])))], [.count], st⟩ := by
  simp [findAllOrder, goodDb, hv, hc]

/-- Witness for C7: a count-only list over a two-document store. -/
theorem findAllOrder_countOnly_skips_paginate_witness :
    findAllOrder goodDb ⟨["query", "isCountOnly"], some [], none, true⟩ [[("a", "1")], [("b", "2")]]
      = ⟨[.success (.countOnly 2)], [.count], [[("a", "1")], [("b", "2")]]⟩ :=
  findAllOrder_countOnly_skips_paginate ⟨["query", "isCountOnly"], some [], none, true⟩
    [[("a", "1")], [("b", "2")]] (by decide) rfl

/-- Claim C8: a create request failing schema validation answers with the
validation-error envelope, touches no store operation and leaves the store
unchanged — for any store behavior, since the store is never reached. -/
theorem addOrder_invalid_no_persist (keys : SchemaKeys) (db : DbOps) (req : CreateReq) (st : Store)
    (hv : (validateParamsWithJoi req.body keys).isValid = false) :
    addOrder keys db req st
      = ⟨[.validationError ("Invalid values in parameters, "
            ++ (validateParamsWithJoi req.body keys).message)], [], st⟩ := by
  simp [addOrder, hv]

/-- Witness for C8: a required field is missing; nothing is persisted. -/
theorem addOrder_invalid_no_persist_witness :
    addOrder [⟨"name", true⟩] goodDb ⟨"u1", []⟩ [[("a", "1")]]
      = ⟨[.validationError ("Invalid values in parameters, "
            ++ (validateParamsWithJoi [] [⟨"name", true⟩]).message)], [], [[("a", "1")]]⟩ :=
  addOrder_invalid_no_persist [⟨"name", true⟩] goodDb ⟨"u1", []⟩ [[("a", "1")]] (by decide)

/-- Counterexample to claim C2 as stated: `updateOrder` spreads the request
body into the update payload without stripping a client-supplied `addedBy`,
so a full update can overwrite the creator identity. Before the call the
stored document's `addedBy` is `alice`; after it, `mallory`. -/
theorem updateOrder_clientAddedBy_cex :
    ([[("_id", "1"), ("addedBy", "alice")]] : Store).map (fun d => getField d "addedBy")
        = [some "alice"]
    ∧ (updateOrder [] goodDb ⟨some "1", "u2", [("addedBy", "mallory")]⟩
        [[("_id", "1"), ("addedBy", "alice")]]).store.map (fun d => getField d "addedBy")
        = [some "mallory"] := by
  constructor
  · decide
  · decide

/-- Claim C2 as amended: `partialUpdateOrder` never alters any stored
document's `addedBy` (it deletes the field from the body before building
the payload); `updateOrder` preserves `addedBy` only when the request body
carries no `addedBy` field. -/
theorem addedBy_preserved_amended (keys : SchemaKeys) (req : UpdateReq) (st : Store) :
    ((partialUpdateOrder keys goodDb req st).store.map (fun d => getField d "addedBy")
        = st.map (fun d => getField d "addedBy"))
    ∧ (getField req.body "addedBy" = none →
      (updateOrder keys goodDb req st).store.map (fun d => getField d "addedBy")
        = st.map (fun d => getField d "addedBy")) := by
  constructor
  · have hmap := dbUpdateOne_map_getField st [("_id", req.params_id)]
      (setField (removeField req.body "addedBy") "updatedBy" req.user_id) "addedBy"
      (getField_updatePatch_addedBy req.body req.user_id)
    by_cases hv : (validateParamsWithJoi
        (setField (removeField req.body "addedBy") "updatedBy" req.user_id) keys).isValid
    · rcases hu : dbUpdateOne st [("_id", req.params_id)]
          (setField (removeField req.body "addedBy") "updatedBy" req.user_id) with ⟨r1, r2⟩
      rw [hu] at hmap
      cases r1 <;> simp [partialUpdateOrder, goodDb, hv, hu, hmap]
    · simp [partialUpdateOrder, hv]
  · intro hb
    have hnone : getField (setField req.body "updatedBy" req.user_id) "addedBy" = none := by
      rw [getField_setField_ne _ _ _ _ (by decide : "addedBy" ≠ "updatedBy")]
      exact hb
    have hmap := dbUpdateOne_map_getField st [("_id", req.params_id)]
      (setField req.body "updatedBy" req.user_id) "addedBy" hnone
    by_cases hv : (validateParamsWithJoi (setField req.body "updatedBy" req.user_id) keys).isValid
    · rcases hu : dbUpdateOne st [("_id", req.params_id)]
          (setField req.body "updatedBy" req.user_id) with ⟨r1, r2⟩
      rw [hu] at hmap
      cases r1 <;> simp [updateOrder, goodDb, hv, hu, hmap]
    · simp [updateOrder, hv]

/-- Witness for the amended C2: a partial update that smuggles `addedBy`
leaves the stored creator untouched, and a full update with no `addedBy`
in the body does too. -/
theorem addedBy_preserved_amended_witness :
    ((partialUpdateOrder [] goodDb ⟨some "1", "u2", [("addedBy", "evil")]⟩
        [[("_id", "1"), ("addedBy", "alice")]]).store.map (fun d => getField d "addedBy")
      = ([[("_id", "1"), ("addedBy", "alice")]] : Store).map (fun d => getField d "addedBy"))
    ∧ ((updateOrder [] goodDb ⟨some "1", "u2", [("f", "2")]⟩
        [[("_id", "1"), ("addedBy", "alice")]]).store.map (fun d => getField d "addedBy")
      = ([[("_id", "1"), ("addedBy", "alice")]] : Store).map (fun d => getField d "addedBy")) :=
  ⟨(addedBy_preserved_amended [] ⟨some "1", "u2", [("addedBy", "evil")]⟩
      [[("_id", "1"), ("addedBy", "alice")]]).1,
   (addedBy_preserved_amended [] ⟨some "1", "u2", [("f", "2")]⟩
      [[("_id", "1"), ("addedBy", "alice")]]).2 (by decide)⟩

/-- Claim C3, run at the failing input: the missing-id guard of
`partialUpdateOrder` calls `res.badRequest` without `return`, so with no id
parameter the controller still validates the body and still issues an
`updateOne` store call (against the filter `\x7b _id : undefined \x7d`),
and a second response is attempted after the bad-request one. -/
theorem partialUpdateOrder_missingId_fall_through :
    (partialUpdateOrder [] goodDb ⟨none, "u1", [("f", "1")]⟩ [[("_id", "1")]]).sent
      = [.badRequest "Insufficient request parameters! id is required.", .recordNotFound]
    ∧ (partialUpdateOrder [] goodDb ⟨none, "u1", [("f", "1")]⟩ [[("_id", "1")]]).calls
      = [.updateOne] := by
  constructor
  · decide
  · decide

/-- Claim C9: every controller operation catches a store exception at its
boundary and answers with the internal-server-error envelope carrying the
exception's message — here against a store all of whose operations raise
`e`, under the hypotheses that let each operation reach its store call. -/
theorem controllers_catch_db_errors (e : String) (ckeys ukeys : SchemaKeys)
    (creq : CreateReq) (lreq : ListReq) (greq : GetReq) (nreq : CountReq)
    (ureq : UpdateReq) (st : Store) :
    ((validateParamsWithJoi creq.body ckeys).isValid = true →
      (addOrder ckeys (failDb e) creq st).sent = [.internalServerError e])
    ∧ ((validateFilterWithJoi lreq.rawKeys findFilterKeys).isValid = true →
      (findAllOrder (failDb e) lreq st).sent = [.internalServerError e])
    ∧ (isValidObjectId greq.params_id = true →
      (getOrder (failDb e) greq st).sent = [.internalServerError e])
    ∧ ((validateFilterWithJoi nreq.rawKeys findFilterKeys).isValid = true →
      (getOrderCount (failDb e) nreq st).sent = [.internalServerError e])
    ∧ ((validateParamsWithJoi (setField ureq.body "updatedBy" ureq.user_id) ukeys).isValid = true →
      (updateOrder ukeys (failDb e) ureq st).sent = [.internalServerError e])
    ∧ (truthyStr ureq.params_id = true →
      (validateParamsWithJoi (setField (removeField ureq.body "addedBy") "updatedBy"
          ureq.user_id) ukeys).isValid = true →
      (partialUpdateOrder ukeys (failDb e) ureq st).sent = [.internalServerError e]) := by
  refine ⟨fun h => ?_, fun h => ?_, fun h => ?_, fun h => ?_, fun h => ?_, fun ht h => ?_⟩
  · simp [addOrder, failDb, h]
  · by_cases hc : lreq.isCountOnly <;> simp [findAllOrder, failDb, h, hc]
  · simp [getOrder, failDb, h]
  · simp [getOrderCount, failDb, h]
  · simp [updateOrder, failDb, h]
  · simp [partialUpdateOrder, failDb, h, ht]

/-- Witness for C9: all six operations, run at concrete requests against
the store that raises "boom" on every call, answer internal-server-error
"boom". -/
theorem controllers_catch_db_errors_witness :
    (addOrder [] (failDb "boom") ⟨"u1", []⟩ []).sent = [.internalServerError "boom"]
    ∧ (findAllOrder (failDb "boom") ⟨["query"], none, none, false⟩ []).sent
        = [.internalServerError "boom"]
    ∧ (getOrder (failDb "boom") ⟨some "0123456789abcdef01234567"⟩ []).sent
        = [.internalServerError "boom"]
    ∧ (getOrderCount (failDb "boom") ⟨["where"], none⟩ []).sent = [.internalServerError "boom"]
    ∧ (updateOrder [] (failDb "boom") ⟨some "1", "u1", []⟩ []).sent
        = [.internalServerError "boom"]
    ∧ (partialUpdateOrder [] (failDb "boom") ⟨some "1", "u1", []⟩ []).sent
        = [.internalServerError "boom"] := by
  have h := controllers_catch_db_errors "boom" [] [] ⟨"u1", []⟩ ⟨["query"], none, none, false⟩
    ⟨some "0123456789abcdef01234567"⟩ ⟨["where"], none⟩ ⟨some "1", "u1", []⟩ []
  exact ⟨h.1 (by decide), h.2.1 (by decide), h.2.2.1 (by decide), h.2.2.2.1 (by decide),
    h.2.2.2.2.1 (by decide), h.2.2.2.2.2 (by decide) (by decide)⟩

/-- Claim C10: a partial-update request whose body holds an `addedBy` field
has that key deleted from `req.body` in place before the update payload is
built: after the call the request body is the original with every
`addedBy` entry removed, no longer contains the key, and differs from the
original — an observable effect on the shared request object, whatever the
schema and whatever the store does. -/
theorem partialUpdateOrder_mutates_req_body (keys : SchemaKeys) (db : DbOps)
    (req : UpdateReq) (st : Store)
    (h : (getField req.body "addedBy").isSome = true) :
    (partialUpdateOrder keys db req st).reqBody = removeField req.body "addedBy"
    ∧ getField (partialUpdateOrder keys db req st).reqBody "addedBy" = none
    ∧ (partialUpdateOrder keys db req st).reqBody ≠ req.body := by
  have hb : (partialUpdateOrder keys db req st).reqBody = removeField req.body "addedBy" := by
    by_cases hv : (validateParamsWithJoi
        (setField (removeField req.body "addedBy") "updatedBy" req.user_id) keys).isValid
    · cases hu : db.updateOne st [("_id", req.params_id)]
          (setField (removeField req.body "addedBy") "updatedBy" req.user_id) with
      | error e => simp [partialUpdateOrder, hv, hu]
      | ok p =>
        rcases p with ⟨r1, r2⟩
        cases r1 <;> simp [partialUpdateOrder, hv, hu]
    · simp [partialUpdateOrder, hv]
  refine ⟨hb, by rw [hb]; exact getField_removeField_self _ _, ?_⟩
  intro heq
  rw [hb] at heq
  have hre := getField_removeField_self req.body "addedBy"
  rw [heq] at hre
  rw [hre] at h
  simp at h

/-- Witness for C10: a concrete partial update whose body smuggles
`addedBy` mutates the request object. -/
theorem partialUpdateOrder_mutates_req_body_witness :
    (partialUpdateOrder [] goodDb ⟨some "1", "u2", [("addedBy", "evil"), ("f", "2")]⟩
        [[("_id", "1")]]).reqBody
      = removeField [("addedBy", "evil"), ("f", "2")] "addedBy"
    ∧ getField (partialUpdateOrder [] goodDb ⟨some "1", "u2", [("addedBy", "evil"), ("f", "2")]⟩
        [[("_id", "1")]]).reqBody "addedBy" = none
    ∧ (partialUpdateOrder [] goodDb ⟨some "1", "u2", [("addedBy", "evil"), ("f", "2")]⟩
        [[("_id", "1")]]).reqBody ≠ [("addedBy", "evil"), ("f", "2")] :=
  partialUpdateOrder_mutates_req_body [] goodDb ⟨some "1", "u2", [("addedBy", "evil"), ("f", "2")]⟩
    [[("_id", "1")]] (by decide)

end ECom
